import Mathlib

/-!
Shallow embedding of the SoundTime-Listing node directory (src/db.js).

The service keeps one SQLite table of node records.  We model the table as a
`List NodeRecord` (row order = insertion order), SQL `datetime('now')` and the
JS `Date.now()` clock as an `Int` millisecond timestamp parameter `now`, and
the outbound network as explicit environment functions.  JS truthiness and the
`||` / `??` operators are modelled by dedicated helpers so that the handler
definitions can mirror the JS expressions one-for-one.
-/

namespace SoundTimeListing

/-- Minimal JSON value model for remote response bodies. -/
inductive Json where
  | null
  | bool (b : Bool)
  | num (n : Int)
  | str (s : String)
  | arr (elems : List Json)
  | obj (fields : List (String × Json))

/-- JS truthiness of a parsed JSON value (`if (body)`). -/
def jsTruthy : Json → Bool
  | .null => false
  | .bool b => b
  | .num n => n != 0
  | .str s => s != ""
  | .arr _ => true
  | .obj _ => true

/-- JS property access `j.k` on a parsed JSON value: a field of an object, or
`undefined` (`none`) for a missing field or a non-object. -/
def getField (j : Json) (k : String) : Option Json :=
  match j with
  | .obj fields => fields.lookup k
  | _ => none

/-- `hay` starts with `pat` (character-list version of `String.startsWith`,
kept structural so the kernel can evaluate it). -/
def startsWithList : List Char → List Char → Bool
  | _, [] => true
  | [], _ :: _ => false
  | c :: cs, d :: ds => c == d && startsWithList cs ds

/-- `needle` occurs as a contiguous substring of the second list
(JS `String.prototype.includes`). -/
def containsSubList (needle : List Char) : List Char → Bool
  | [] => needle.isEmpty
  | c :: cs => startsWithList (c :: cs) needle || containsSubList needle cs

/-- JS `s.startsWith(p)`. -/
def jsStartsWith (s p : String) : Bool := startsWithList s.data p.data

/-- JS `s.includes(sub)`. -/
def jsIncludes (s sub : String) : Bool := containsSubList sub.data s.data

/-- `replace(/^https?:\/\//, "")`: strip one leading `https://` or `http://`. -/
def stripScheme (cs : List Char) : List Char :=
  if startsWithList cs ("https://".data) then cs.drop 8
  else if startsWithList cs ("http://".data) then cs.drop 7
  else cs

/-- `replace(/\/$/, "")`: strip one trailing slash. -/
def stripSlash (cs : List Char) : List Char :=
  if cs.getLast? == some '/' then cs.dropLast else cs

/-- `domain.replace(/^https?:\/\//, "").replace(/\/$/, "")` — the
normalization applied to every incoming domain string. -/
def cleanDomain (s : String) : String := String.mk (stripSlash (stripScheme s.data))

/-- JS `a || b` where `a` is a possibly-absent string (absent and `""` are
falsy) and `b` is a string. -/
def jsOr (a : Option String) (b : String) : String :=
  match a with
  | some s => if s == "" then b else s
  | none => b

/-- JS `a || b` where both sides are possibly-absent strings; the overall
result may be `null` (`none`). -/
def jsOrOpt (a b : Option String) : Option String :=
  match a with
  | some s => if s == "" then b else some s
  | none => b

/-! ### Remote probe client (`checkNodeHealth` / `fetchNodeInfo`) -/

/-- Protocols tried by an outbound probe. -/
inductive Proto where
  | https
  | http
deriving DecidableEq

/-- Outcome of one `fetch` attempt against one protocol:
either the promise rejects (network error / abort-timeout), or an HTTP
response arrives with `ok = res.ok` (2xx) and a body whose JSON parse
(`res.json()`) either succeeds or throws. -/
inductive FetchOutcome where
  | thrown
  | response (ok : Bool) (body : Except Unit Json)

/-- The network environment for a single probe call: what each protocol
attempt would return for the probed URL. -/
abbrev FetchEnv := Proto → FetchOutcome

/-- The protocol-selection condition shared by both probe operations:
`domain.startsWith("localhost") || domain.includes("127.0.0.1")`. -/
def loopbackLike (domain : String) : Bool :=
  jsStartsWith domain "localhost" || jsIncludes domain "127.0.0.1"

/-- `const protocols = ... ? ["http"] : ["https", "http"]`. -/
def protocolsFor (domain : String) : List Proto :=
  if loopbackLike domain then [.http] else [.https, .http]

/-- `res.json().catch(() => null)`. -/
def jsonOrNull : Except Unit Json → Option Json
  | .ok j => some j
  | .error _ => none

/-- `body.status === "ok"`. -/
def statusOk (j : Json) : Bool :=
  match getField j "status" with
  | some (.str s) => s == "ok"
  | _ => false

/-- One protocol attempt of `checkNodeHealth`: the `try` block returns `true`
only on a 2xx response whose parsed body is truthy with `status === "ok"`;
a thrown fetch is caught (`catch {}`) and the loop tries the next protocol. -/
def healthAttempt : FetchOutcome → Bool
  | .thrown => false
  | .response ok body =>
    if ok then
      match jsonOrNull body with
      | some j => jsTruthy j && statusOk j
      | none => false
    else false

/-- `checkNodeHealth(domain)` as a function of the network environment:
iterate the protocol list, returning `true` at the first healthy attempt. -/
def checkNodeHealth (env : FetchEnv) (domain : String) : Bool :=
  (protocolsFor domain).any (fun p => healthAttempt (env p))

/-- One protocol attempt of `fetchNodeInfo`: on 2xx, `return await res.json()`;
a parse error or network error is caught and the next protocol is tried. -/
def infoAttempt : FetchOutcome → Option Json
  | .response true (.ok j) => some j
  | _ => none

/-- `fetchNodeInfo(domain)` as a function of the network environment: the
parsed body of the first successful attempt, else `null`. -/
def fetchNodeInfo (env : FetchEnv) (domain : String) : Option Json :=
  (protocolsFor domain).findSome? (fun p => infoAttempt (env p))

/-! ### Node record store -/

/-- One row of the `nodes` table.  `INTEGER` columns are `Int`, `TEXT` is
`String`, nullable columns are `Option`, and the two timestamp-text columns
used in arithmetic are `Int` milliseconds. -/
structure NodeRecord where
  id : String
  domain : String
  name : String
  description : String
  version : String
  track_count : Int
  user_count : Int
  open_registration : Int
  p2p_enabled : Int
  p2p_node_id : Option String
  country : Option String
  token : String
  first_seen : Int
  last_seen : Int
  last_healthy : Int
  is_online : Int
  down_since : Option Int
deriving DecidableEq

/-- The JSON object a remote node may return from `/api/nodeinfo`, typed per
the collaborator contract: any subset of these fields may be present. -/
structure NodeInfo where
  name : Option String := none
  description : Option String := none
  version : Option String := none
  track_count : Option Int := none
  user_count : Option Int := none
  open_registration : Option Int := none
  p2p_enabled : Option Bool := none
  p2p_node_id : Option String := none
deriving DecidableEq

/-- The body of a `POST /api/announce` request.  The handler destructures only
`{domain, name, description, version, token}`; any other body field — in
particular `track_count` — is never read. -/
structure AnnounceReq where
  domain : Option String := none
  name : Option String := none
  description : Option String := none
  version : Option String := none
  token : Option String := none
  track_count : Option Int := none
deriving DecidableEq

/-- The response of `POST /api/announce`, by status code and payload. -/
inductive AnnounceRes where
  | badRequest
  | unauthorized
  | forbidden
  | conflict
  | unprocessable
  | updated (id : String) (domain : String)
  | registered (id : String) (domain : String) (token : String)
deriving DecidableEq

/-- The token carried by an announce response: only a 201 `registered`
response ever contains one. -/
def resToken : AnnounceRes → Option String
  | .registered _ _ t => some t
  | _ => none

/-- The health-probe environment seen by the handlers: the boolean result of
`checkNodeHealth` per domain. -/
abbrev HealthProbe := String → Bool

/-- The nodeinfo-fetch environment seen by the handlers: the result of
`fetchNodeInfo` per domain, decoded into the typed `NodeInfo`. -/
abbrev InfoFetch := String → Option NodeInfo

/-- The merged row written by the heartbeat `updateStmt`, mirroring the bound
values one-for-one.  The trailing `?? 0` / `?? 1` fallbacks of the JS chains
are unreachable because the corresponding columns are `NOT NULL`, so the
stored value is the last resort here. -/
def heartbeatMerge (req : AnnounceReq) (info : Option NodeInfo) (node : NodeRecord)
    (now : Int) : NodeRecord :=
  { node with
    name := jsOr req.name (jsOr (info.bind NodeInfo.name) (jsOr (some node.name) "")),
    description := jsOr req.description
      (jsOr (info.bind NodeInfo.description) (jsOr (some node.description) "")),
    version := jsOr req.version (jsOr (info.bind NodeInfo.version) (jsOr (some node.version) "")),
    track_count := (info.bind NodeInfo.track_count).getD node.track_count,
    user_count := (info.bind NodeInfo.user_count).getD node.user_count,
    open_registration := (info.bind NodeInfo.open_registration).getD node.open_registration,
    p2p_enabled := if (info.bind NodeInfo.p2p_enabled).getD false then 1 else 0,
    p2p_node_id := jsOrOpt (info.bind NodeInfo.p2p_node_id) (jsOrOpt node.p2p_node_id none),
    last_seen := now,
    last_healthy := now,
    is_online := 1,
    down_since := none }

/-- The row inserted by a new registration.  Columns absent from the INSERT
column list take their schema defaults: `country = NULL`, the three
timestamps `datetime('now')`, `is_online = 1`, `down_since = NULL`. -/
def newNodeRecord (req : AnnounceReq) (info : Option NodeInfo)
    (freshId freshToken dom : String) (now : Int) : NodeRecord :=
  { id := freshId,
    domain := dom,
    name := jsOr req.name (jsOr (info.bind NodeInfo.name) ""),
    description := jsOr req.description (jsOr (info.bind NodeInfo.description) ""),
    version := jsOr req.version (jsOr (info.bind NodeInfo.version) ""),
    track_count := (info.bind NodeInfo.track_count).getD 0,
    user_count := (info.bind NodeInfo.user_count).getD 0,
    open_registration := (info.bind NodeInfo.open_registration).getD 1,
    p2p_enabled := if (info.bind NodeInfo.p2p_enabled).getD false then 1 else 0,
    p2p_node_id := jsOrOpt (info.bind NodeInfo.p2p_node_id) none,
    country := none,
    token := freshToken,
    first_seen := now,
    last_seen := now,
    last_healthy := now,
    is_online := 1,
    down_since := none }

/-- The registration branch of `POST /api/announce` (no token in the body):
409 if the domain already has a row, 422 if the reachability probe fails,
otherwise insert one new row and return 201 with the fresh token. -/
def register (probe : HealthProbe) (fetch : InfoFetch) (now : Int)
    (freshId freshToken : String) (req : AnnounceReq) (dom : String)
    (st : List NodeRecord) : AnnounceRes × List NodeRecord :=
  if st.any (fun r => r.domain == dom) then (.conflict, st)
  else if !(probe dom) then (.unprocessable, st)
  else
    (.registered freshId dom freshToken,
     st ++ [newNodeRecord req (fetch dom) freshId freshToken dom now])

/-- The heartbeat branch of `POST /api/announce` (truthy token in the body):
401 if no row has this token, 403 if the row's domain differs from the
normalized request domain, otherwise fetch fresh info and run `updateStmt`
(`UPDATE ... WHERE token = ?`). -/
def heartbeat (fetch : InfoFetch) (now : Int) (req : AnnounceReq) (tok dom : String)
    (st : List NodeRecord) : AnnounceRes × List NodeRecord :=
  match st.find? (fun r => r.token == tok) with
  | none => (.unauthorized, st)
  | some node =>
    if node.domain != dom then (.forbidden, st)
    else
      (.updated node.id dom,
       st.map (fun r => if r.token == tok then heartbeatMerge req (fetch dom) r now else r))

/-- `POST /api/announce`.  `req.domain = none` stands for an absent or
non-string `domain` (both rejected by the same guard); an empty string is
falsy and also rejected with 400.  `if (token)` is a truthiness test, so an
absent or empty token selects the registration branch. -/
def announce (probe : HealthProbe) (fetch : InfoFetch) (now : Int)
    (freshId freshToken : String) (req : AnnounceReq)
    (st : List NodeRecord) : AnnounceRes × List NodeRecord :=
  match req.domain with
  | none => (.badRequest, st)
  | some d =>
    if d == "" then (.badRequest, st)
    else
      match req.token with
      | some tok =>
        if tok == "" then register probe fetch now freshId freshToken req (cleanDomain d) st
        else heartbeat fetch now req tok (cleanDomain d) st
      | none => register probe fetch now freshId freshToken req (cleanDomain d) st

/-- The response of `DELETE /api/nodes/:domain`. -/
inductive DeleteRes where
  | noToken
  | notFound
  | removed (domain : String)
deriving DecidableEq

/-- `DELETE /api/nodes/:domain` with bearer token `tokenHdr` (absent or empty
is falsy → 401): delete the row matching both the normalized domain and the
token, by id. -/
def deleteNode (tokenHdr : Option String) (domainParam : String)
    (st : List NodeRecord) : DeleteRes × List NodeRecord :=
  match tokenHdr with
  | none => (.noToken, st)
  | some tok =>
    if tok == "" then (.noToken, st)
    else
      match st.find? (fun r => r.domain == cleanDomain domainParam && r.token == tok) with
      | none => (.notFound, st)
      | some node => (.removed (cleanDomain domainParam), st.filter (fun r => !(r.id == node.id)))

/-- `GET /api/nodes/:domain`: `SELECT ... FROM nodes WHERE domain = ?`. -/
def getNode (domainParam : String) (st : List NodeRecord) : Option NodeRecord :=
  st.find? (fun r => r.domain == cleanDomain domainParam)

/-- SQL `SUM` over an integer column: `NULL` over zero rows, the sum
otherwise. -/
def sqlSum (xs : List Int) : Option Int :=
  match xs with
  | [] => none
  | _ => some xs.sum

/-- The payload of `GET /api/stats`. -/
structure Stats where
  total_nodes : Int
  online_nodes : Option Int
  total_tracks : Option Int
  total_users : Option Int
deriving DecidableEq

/-- `GET /api/stats`: `COUNT(*)`, `SUM(CASE WHEN is_online = 1 THEN 1 ELSE 0
END)`, `SUM(track_count)`, `SUM(user_count)`, returned unconverted. -/
def getStats (st : List NodeRecord) : Stats :=
  { total_nodes := st.length,
    online_nodes := sqlSum (st.map (fun r => if r.is_online == 1 then 1 else 0)),
    total_tracks := sqlSum (st.map NodeRecord.track_count),
    total_users := sqlSum (st.map NodeRecord.user_count) }

/-! ### Health sweeper -/

/-- `const REMOVAL_THRESHOLD_HOURS = 48`. -/
def REMOVAL_THRESHOLD_HOURS : Int := 48

/-- `1000 * 60 * 60` milliseconds per hour. -/
def HOUR_MS : Int := 1000 * 60 * 60

/-- `hoursDown >= REMOVAL_THRESHOLD_HOURS` where
`hoursDown = (Date.now() - downSince) / 3600000`; over integers the real
division compares exactly as the cross-multiplied form. -/
def evictionDue (now downSince : Int) : Bool :=
  REMOVAL_THRESHOLD_HOURS * HOUR_MS ≤ now - downSince

/-- The sweeper's healthy-branch `UPDATE`, mirroring the `COALESCE(?, col)`
pairs and the bound JS expressions one-for-one. -/
def sweepHealthyUpdate (info : Option NodeInfo) (now : Int) (r : NodeRecord) : NodeRecord :=
  { r with
    is_online := 1,
    last_healthy := now,
    last_seen := now,
    down_since := none,
    track_count := (info.bind NodeInfo.track_count).getD r.track_count,
    user_count := (info.bind NodeInfo.user_count).getD r.user_count,
    version := (jsOrOpt (info.bind NodeInfo.version) none).getD r.version,
    p2p_enabled :=
      match info.bind NodeInfo.p2p_enabled with
      | some b => if b then 1 else 0
      | none => r.p2p_enabled,
    p2p_node_id :=
      match jsOrOpt (info.bind NodeInfo.p2p_node_id) none with
      | some s => some s
      | none => r.p2p_node_id,
    name := (jsOrOpt (info.bind NodeInfo.name) none).getD r.name,
    open_registration := (info.bind NodeInfo.open_registration).getD r.open_registration }

/-- The sweeper's offline-transition write: if the snapshot row was online,
`UPDATE nodes SET is_online = 0, down_since = datetime('now') WHERE id = ?`;
otherwise no statement runs. -/
def offlineMark (now : Int) (node : NodeRecord) (st : List NodeRecord) : List NodeRecord :=
  if node.is_online != 0 then
    st.map (fun r =>
      if r.id == node.id then { r with is_online := 0, down_since := some now } else r)
  else st

/-- One iteration of the sweeper's `for (const node of nodes)` loop: `node` is
the row from the snapshot taken at cycle start, `st` the current table.  On a
failed probe, the offline transition tests the snapshot's `is_online`, and the
eviction test reads the snapshot's `down_since` (the value stored before this
cycle's update), deleting by id when it is at least 48 hours old. -/
def sweepStep (probe : HealthProbe) (fetch : InfoFetch) (now : Int)
    (st : List NodeRecord) (node : NodeRecord) : List NodeRecord :=
  if probe node.domain then
    st.map (fun r => if r.id == node.id then sweepHealthyUpdate (fetch node.domain) now r else r)
  else
    match node.down_since with
    | some ds =>
      if evictionDue now ds then
        (offlineMark now node st).filter (fun r => !(r.id == node.id))
      else offlineMark now node st
    | none => offlineMark now node st

/-- `runHealthChecks()`: snapshot all rows (`SELECT * FROM nodes`), then
process each snapshot row in order against the evolving table. -/
def runHealthChecks (probe : HealthProbe) (fetch : InfoFetch) (now : Int)
    (st : List NodeRecord) : List NodeRecord :=
  st.foldl (sweepStep probe fetch now) st

/-- The sweeper loop with the fallibility of the per-record store writes made
explicit: `dbFail` says whether the synchronous store operation for a given
snapshot row throws.  The JS loop body has no try/catch, so a throw ends the
loop; the returned flag records whether the cycle was aborted, and the
returned table keeps only the writes performed before the throw. -/
def sweepLoopE (probe : HealthProbe) (fetch : InfoFetch) (now : Int)
    (dbFail : String → Bool) :
    List NodeRecord → List NodeRecord → List NodeRecord × Bool
  | st, [] => (st, false)
  | st, node :: rest =>
    if dbFail node.id then (st, true)
    else sweepLoopE probe fetch now dbFail (sweepStep probe fetch now st node) rest

/-- `runHealthChecks()` with explicit store-write fallibility. -/
def runHealthChecksE (probe : HealthProbe) (fetch : InfoFetch) (now : Int)
    (dbFail : String → Bool) (st : List NodeRecord) : List NodeRecord × Bool :=
  sweepLoopE probe fetch now dbFail st st

/-- The ids of all rows. -/
def idsOf (st : List NodeRecord) : List String := st.map NodeRecord.id

/-- The spec's store invariant: `down_since` is non-null iff the row is
marked offline. -/
def StoreInv (st : List NodeRecord) : Prop :=
  ∀ r ∈ st, (r.down_since ≠ none ↔ r.is_online = 0)

/-! ### Concrete fixtures used by witnesses and counterexamples -/

/-- A registered, online node with 10 tracks. -/
def recA : NodeRecord :=
  { id := "id-a", domain := "a.example", name := "A", description := "", version := "1.0",
    track_count := 10, user_count := 3, open_registration := 1, p2p_enabled := 0,
    p2p_node_id := none, country := none, token := "tokA", first_seen := 0, last_seen := 0,
    last_healthy := 0, is_online := 1, down_since := none }

/-- A node marked offline with `down_since = 0`. -/
def recDown : NodeRecord :=
  { id := "id-down", domain := "down.example", name := "", description := "", version := "",
    track_count := 0, user_count := 0, open_registration := 1, p2p_enabled := 0,
    p2p_node_id := none, country := none, token := "tokDown", first_seen := 0, last_seen := 0,
    last_healthy := 0, is_online := 0, down_since := some 0 }

/-- A second online node, behind `recB1` in the table. -/
def recB1 : NodeRecord :=
  { id := "id-b1", domain := "b1.example", name := "", description := "", version := "",
    track_count := 0, user_count := 0, open_registration := 1, p2p_enabled := 0,
    p2p_node_id := none, country := none, token := "tokB1", first_seen := 0, last_seen := 0,
    last_healthy := 0, is_online := 1, down_since := none }

/-- A second online node, behind `recB1` in the table. -/
def recB2 : NodeRecord :=
  { id := "id-b2", domain := "b2.example", name := "", description := "", version := "",
    track_count := 0, user_count := 0, open_registration := 1, p2p_enabled := 0,
    p2p_node_id := none, country := none, token := "tokB2", first_seen := 0, last_seen := 0,
    last_healthy := 0, is_online := 1, down_since := none }

/-- A probe environment that reports every domain reachable. -/
def probeUp : HealthProbe := fun _ => true

/-- A probe environment that reports every domain unreachable. -/
def probeDown : HealthProbe := fun _ => false

/-- A fetch environment in which `/api/nodeinfo` always fails. -/
def fetchAbsent : InfoFetch := fun _ => none

/-- A heartbeat for `recA` that also supplies `track_count: 20` in the body. -/
def reqTrack20 : AnnounceReq :=
  { domain := some "a.example", token := some "tokA", track_count := some 20 }

/-- An announce request whose `token` field is present but the empty string. -/
def reqEmptyTok : AnnounceReq := { domain := some "a.example", token := some "" }

/-- An announce request with an unknown token. -/
def reqUnknownTok : AnnounceReq := { domain := some "a.example", token := some "nope" }

/-- A heartbeat with `recA`'s token but a different domain. -/
def reqMismatch : AnnounceReq := { domain := some "b.example", token := some "tokA" }

/-- A token-less registration request for a fresh domain. -/
def reqRegB : AnnounceReq := { domain := some "b.example", name := some "B" }

/-- A network environment whose every attempt rejects. -/
def envThrown : FetchEnv := fun _ => .thrown

/-- A network environment answering 200 with body `{"status": "ok"}`. -/
def envOkBody : FetchEnv := fun _ => .response true (.ok (.obj [("status", .str "ok")]))

/-- A store-write environment that throws while processing `recB1`. -/
def dbFailB1 : String → Bool := fun s => s == "id-b1"

/-! ### Probe client lemmas -/

lemma statusOk_eq_true_iff (j : Json) :
    statusOk j = true ↔ getField j "status" = some (.str "ok") := by
  unfold statusOk
  cases h : getField j "status" with
  | none => simp
  | some v => cases v <;> simp

lemma healthAttempt_eq_true_iff (o : FetchOutcome) :
    healthAttempt o = true ↔
      ∃ j, o = .response true (.ok j) ∧ jsTruthy j = true ∧ statusOk j = true := by
  cases o with
  | thrown => simp [healthAttempt]
  | response ok body =>
    cases ok with
    | false => simp [healthAttempt]
    | true =>
      cases body with
      | ok j => simp [healthAttempt, jsonOrNull, Bool.and_eq_true, and_assoc]
      | error e => simp [healthAttempt, jsonOrNull]

lemma infoAttempt_eq_none_iff (o : FetchOutcome) :
    infoAttempt o = none ↔ ∀ j, o ≠ .response true (.ok j) := by
  cases o with
  | thrown => simp [infoAttempt]
  | response ok body =>
    cases ok with
    | false => simp [infoAttempt]
    | true =>
      cases body with
      | ok j => simp [infoAttempt]
      | error e => simp [infoAttempt]

lemma infoAttempt_eq_some (o : FetchOutcome) (j : Json) :
    infoAttempt o = some j → o = .response true (.ok j) := by
  cases o with
  | thrown => simp [infoAttempt]
  | response ok body =>
    cases ok with
    | false => simp [infoAttempt]
    | true =>
      cases body with
      | ok j2 => intro h; simp only [infoAttempt, Option.some.injEq] at h; rw [h]
      | error e => simp [infoAttempt]

/-! ### Claim theorems -/

/-- Claim C7: `probeHealth` (the code's `checkNodeHealth`) returns `true` iff
some attempted protocol request received a 2xx response whose parsed JSON body
carries the literal string `"ok"` under the `status` key; every network error,
timeout, non-2xx status or malformed body makes that attempt count as failure,
and `fetchInfo` (`fetchNodeInfo`) returns the parsed body of a 2xx response or
absent on any failure.  Both functions are total Lean functions of the network
environment — every throwing operation of the source sits inside their
try/catch, so no exception reaches the caller. -/
theorem claim_C7 (env envI : FetchEnv) (d : String) :
    (checkNodeHealth env d = true ↔
      ∃ p ∈ protocolsFor d, ∃ j, env p = .response true (.ok j) ∧ jsTruthy j = true ∧
        getField j "status" = some (.str "ok"))
    ∧ (fetchNodeInfo envI d = none ↔ ∀ p ∈ protocolsFor d, ∀ j, envI p ≠ .response true (.ok j))
    ∧ (∀ j, fetchNodeInfo envI d = some j → ∃ p ∈ protocolsFor d, envI p = .response true (.ok j)) := by
  refine ⟨?_, ?_, ?_⟩
  · simp only [checkNodeHealth, List.any_eq_true, healthAttempt_eq_true_iff, statusOk_eq_true_iff]
  · simp only [fetchNodeInfo, List.findSome?_eq_none_iff, infoAttempt_eq_none_iff]
  · intro j h
    rw [fetchNodeInfo, List.findSome?_eq_some_iff] at h
    obtain ⟨l₁, p, l₂, hsplit, hp, -⟩ := h
    exact ⟨p, by rw [hsplit]; exact List.mem_append_right _ (List.mem_cons_self _ _),
      infoAttempt_eq_some _ _ hp⟩

/-- Witness for C7 at concrete environments: an all-2xx `{"status":"ok"}`
network makes the probe succeed, and an all-rejecting network makes
`fetchNodeInfo` absent. -/
theorem claim_C7_witness :
    checkNodeHealth envOkBody "a.example" = true ∧ fetchNodeInfo envThrown "a.example" = none := by
  constructor
  · exact (claim_C7 envOkBody envThrown "a.example").1.mpr
      ⟨.https, by decide, .obj [("status", .str "ok")], rfl, rfl, rfl⟩
  · exact (claim_C7 envOkBody envThrown "a.example").2.1.mpr
      (by intro p _ j h; cases p <;> exact FetchOutcome.noConfusion h)

/-- Claim C8: both probe operations try HTTP only for a domain matching the
code's loopback test (`startsWith("localhost") || includes("127.0.0.1")`), and
for every other domain try HTTPS first, consulting the HTTP attempt only when
the HTTPS attempt fails. -/
theorem claim_C8 (env : FetchEnv) (d : String) :
    (loopbackLike d = true →
      protocolsFor d = [.http]
      ∧ checkNodeHealth env d = healthAttempt (env .http)
      ∧ fetchNodeInfo env d = infoAttempt (env .http))
    ∧ (loopbackLike d = false →
      protocolsFor d = [.https, .http]
      ∧ checkNodeHealth env d = (healthAttempt (env .https) || healthAttempt (env .http))
      ∧ (healthAttempt (env .https) = true → checkNodeHealth env d = true)
      ∧ (healthAttempt (env .https) = false → checkNodeHealth env d = healthAttempt (env .http))
      ∧ fetchNodeInfo env d =
          (match infoAttempt (env .https) with
           | some j => some j
           | none => infoAttempt (env .http))) := by
  constructor
  · intro h
    refine ⟨by simp [protocolsFor, h], ?_, ?_⟩
    · simp [checkNodeHealth, protocolsFor, h]
    · simp only [fetchNodeInfo, protocolsFor, h, if_true, List.findSome?]
      cases infoAttempt (env .http) <;> rfl
  · intro h
    refine ⟨by simp [protocolsFor, h], ?_, ?_, ?_, ?_⟩
    · simp [checkNodeHealth, protocolsFor, h]
    · intro hh; simp [checkNodeHealth, protocolsFor, h, hh]
    · intro hh; simp [checkNodeHealth, protocolsFor, h, hh]
    · simp only [fetchNodeInfo, protocolsFor, h, if_false, Bool.false_eq_true, List.findSome?]
      cases infoAttempt (env .https) <;> [skip; rfl]
      cases infoAttempt (env .http) <;> rfl

/-- Witness for C8: `localhost:3000` is probed over HTTP only, and for
`a.example` the probe is the HTTPS attempt or-else the HTTP attempt. -/
theorem claim_C8_witness :
    checkNodeHealth envThrown "localhost:3000" = healthAttempt (envThrown .http)
    ∧ checkNodeHealth envThrown "a.example"
        = (healthAttempt (envThrown .https) || healthAttempt (envThrown .http)) := by
  exact ⟨((claim_C8 envThrown "localhost:3000").1 (by decide)).2.1,
    ((claim_C8 envThrown "a.example").2 (by decide)).2.1⟩

/-- Claim C10: on an empty store `GET /api/stats` reports `total_nodes = 0`
while the three `SUM` aggregates are SQL `NULL` (not 0), returned
unconverted. -/
theorem claim_C10 :
    getStats [] =
      { total_nodes := 0, online_nodes := none, total_tracks := none, total_users := none }
    ∧ (getStats []).online_nodes ≠ some 0
    ∧ (getStats []).total_tracks ≠ some 0
    ∧ (getStats []).total_users ≠ some 0 := by
  refine ⟨rfl, ?_, ?_, ?_⟩ <;> decide

/-! ### Announce handler lemmas -/

lemma announce_heartbeat_run
    (probe : HealthProbe) (fetch : InfoFetch) (now : Int) (i t : String)
    (req : AnnounceReq) (st : List NodeRecord) (d tok : String) (node : NodeRecord)
    (hd : req.domain = some d) (hd0 : d ≠ "")
    (ht : req.token = some tok) (ht0 : tok ≠ "")
    (hfind : st.find? (fun r => r.token == tok) = some node)
    (hdom : node.domain = cleanDomain d) :
    announce probe fetch now i t req st =
      (.updated node.id (cleanDomain d),
       st.map (fun r =>
         if r.token == tok then heartbeatMerge req (fetch (cleanDomain d)) r now else r)) := by
  simp only [announce, hd, ht]
  rw [if_neg (by simp [hd0]), if_neg (by simp [ht0])]
  simp only [heartbeat, hfind]
  rw [if_neg (by simp [hdom])]

lemma announce_register_run
    (probe : HealthProbe) (fetch : InfoFetch) (now : Int) (i t : String)
    (req : AnnounceReq) (st : List NodeRecord) (d : String)
    (hd : req.domain = some d) (hd0 : d ≠ "")
    (ht : req.token = none ∨ req.token = some "") :
    announce probe fetch now i t req st = register probe fetch now i t req (cleanDomain d) st := by
  rcases ht with h | h <;>
    simp only [announce, hd, h] <;>
    rw [if_neg (by simp [hd0])]
  rw [if_pos (by decide)]

/-- Claim C1 (corrected): on a heartbeat with a valid token the written row is
`heartbeatMerge`, whose per-field precedence is: for `name`, `description` and
`version`, request value, else fetched value, else stored value, else empty
(with JS falsiness, so an empty string does not count as supplied); for
`track_count`, `user_count` and `open_registration`, fetched value if present,
else stored value — the request value is never consulted, since the handler
does not destructure those fields from the body; `p2p_enabled` is set from the
fetched info alone (0 when absent); `p2p_node_id` is fetched, else stored,
else null.  In particular the merged `track_count` ignores the request. -/
theorem claim_C1
    (probe : HealthProbe) (fetch : InfoFetch) (now : Int) (i t : String)
    (req : AnnounceReq) (st : List NodeRecord) (d tok : String) (node : NodeRecord)
    (hd : req.domain = some d) (hd0 : d ≠ "")
    (ht : req.token = some tok) (ht0 : tok ≠ "")
    (hfind : st.find? (fun r => r.token == tok) = some node)
    (hdom : node.domain = cleanDomain d) :
    announce probe fetch now i t req st =
      (.updated node.id (cleanDomain d),
       st.map (fun r =>
         if r.token == tok then heartbeatMerge req (fetch (cleanDomain d)) r now else r))
    ∧ (∀ v, heartbeatMerge { req with track_count := v } (fetch (cleanDomain d)) node now
          = heartbeatMerge req (fetch (cleanDomain d)) node now)
    ∧ (heartbeatMerge req (fetch (cleanDomain d)) node now).track_count
        = ((fetch (cleanDomain d)).bind NodeInfo.track_count).getD node.track_count
    ∧ (heartbeatMerge req (fetch (cleanDomain d)) node now).name
        = jsOr req.name
            (jsOr ((fetch (cleanDomain d)).bind NodeInfo.name) (jsOr (some node.name) "")) :=
  ⟨announce_heartbeat_run probe fetch now i t req st d tok node hd hd0 ht ht0 hfind hdom,
   fun _ => rfl, rfl, rfl⟩

/-- Counterexample to C1 as stated: `recA` stores `track_count = 10`; a
heartbeat with its valid token supplying `track_count: 20` succeeds (200
`updated`), yet `GET /nodes/a.example` afterwards shows `track_count = 10`,
not the explicit request value 20. -/
theorem claim_C1_counterexample :
    (announce probeUp fetchAbsent 1000 "fresh-id" "fresh-tok" reqTrack20 [recA]).1
      = .updated "id-a" "a.example"
    ∧ reqTrack20.track_count = some 20
    ∧ ((getNode "a.example"
          (announce probeUp fetchAbsent 1000 "fresh-id" "fresh-tok" reqTrack20 [recA]).2).map
        NodeRecord.track_count) = some 10
    ∧ some (10 : Int) ≠ some 20 := by
  refine ⟨by decide, rfl, by decide, by decide⟩

/-- Witness for C1 at a concrete heartbeat: the amended merge equation holds
for `recA` under an absent nodeinfo fetch. -/
theorem claim_C1_witness :
    announce probeUp fetchAbsent 1000 "fresh-id" "fresh-tok" reqTrack20 [recA] =
      (.updated recA.id (cleanDomain "a.example"),
       [recA].map (fun r =>
         if r.token == "tokA" then
           heartbeatMerge reqTrack20 (fetchAbsent (cleanDomain "a.example")) r 1000 else r)) :=
  (claim_C1 probeUp fetchAbsent 1000 "fresh-id" "fresh-tok" reqTrack20 [recA]
    "a.example" "tokA" recA rfl (by decide) rfl (by decide) (by decide) (by decide)).1

/-- Claim C5: for an unregistered domain with a reachable probe, a token-less
announce inserts exactly one new row and returns 201 carrying the fresh token;
an identical second token-less announce returns Conflict, leaves the store
unchanged, and carries no token. -/
theorem claim_C5
    (probe : HealthProbe) (fetch : InfoFetch) (now : Int) (i t i2 t2 : String)
    (req : AnnounceReq) (st : List NodeRecord) (d : String)
    (hd : req.domain = some d) (hd0 : d ≠ "") (ht : req.token = none)
    (hex : st.any (fun r => r.domain == cleanDomain d) = false)
    (hprobe : probe (cleanDomain d) = true) :
    announce probe fetch now i t req st =
      (.registered i (cleanDomain d) t,
       st ++ [newNodeRecord req (fetch (cleanDomain d)) i t (cleanDomain d) now])
    ∧ resToken (announce probe fetch now i t req st).1 = some t
    ∧ announce probe fetch now i2 t2 req
        (st ++ [newNodeRecord req (fetch (cleanDomain d)) i t (cleanDomain d) now]) =
      (.conflict, st ++ [newNodeRecord req (fetch (cleanDomain d)) i t (cleanDomain d) now])
    ∧ resToken (announce probe fetch now i2 t2 req
        (st ++ [newNodeRecord req (fetch (cleanDomain d)) i t (cleanDomain d) now])).1 = none := by
  have h1 : announce probe fetch now i t req st =
      (.registered i (cleanDomain d) t,
       st ++ [newNodeRecord req (fetch (cleanDomain d)) i t (cleanDomain d) now]) := by
    rw [announce_register_run probe fetch now i t req st d hd hd0 (Or.inl ht)]
    unfold register
    rw [if_neg (by simp [hex]), if_neg (by simp [hprobe])]
  have h2 : announce probe fetch now i2 t2 req
      (st ++ [newNodeRecord req (fetch (cleanDomain d)) i t (cleanDomain d) now]) =
      (.conflict, st ++ [newNodeRecord req (fetch (cleanDomain d)) i t (cleanDomain d) now]) := by
    rw [announce_register_run probe fetch now i2 t2 req _ d hd hd0 (Or.inl ht)]
    unfold register
    rw [if_pos (by simp [List.any_append, newNodeRecord])]
  exact ⟨h1, by rw [h1]; rfl, h2, by rw [h2]; rfl⟩

/-- Witness for C5: registering `b.example` on an empty store inserts the one
new row and returns its token; repeating it returns Conflict unchanged. -/
theorem claim_C5_witness :
    announce probeUp fetchAbsent 7 "id-b" "tok-b" reqRegB [] =
      (.registered "id-b" (cleanDomain "b.example") "tok-b",
       [] ++ [newNodeRecord reqRegB (fetchAbsent (cleanDomain "b.example"))
                "id-b" "tok-b" (cleanDomain "b.example") 7])
    ∧ announce probeUp fetchAbsent 7 "id-c" "tok-c" reqRegB
        ([] ++ [newNodeRecord reqRegB (fetchAbsent (cleanDomain "b.example"))
                  "id-b" "tok-b" (cleanDomain "b.example") 7]) =
      (.conflict,
       [] ++ [newNodeRecord reqRegB (fetchAbsent (cleanDomain "b.example"))
                "id-b" "tok-b" (cleanDomain "b.example") 7]) := by
  have h := claim_C5 probeUp fetchAbsent 7 "id-b" "tok-b" "id-c" "tok-c" reqRegB []
    "b.example" rfl (by decide) rfl rfl rfl
  exact ⟨h.1, h.2.2.1⟩

/-- Claim C6 (corrected): for an announce request with a string, non-empty
domain whose token is present and truthy (non-empty — the code's `if (token)`
is a truthiness test), an unknown token fails 401 and a token bound to a
different domain fails 403, in both cases without touching the store. -/
theorem claim_C6
    (probe : HealthProbe) (fetch : InfoFetch) (now : Int) (i t : String)
    (req : AnnounceReq) (st : List NodeRecord) (d tok : String)
    (hd : req.domain = some d) (hd0 : d ≠ "")
    (ht : req.token = some tok) (ht0 : tok ≠ "") :
    (st.find? (fun r => r.token == tok) = none →
      announce probe fetch now i t req st = (.unauthorized, st))
    ∧ (∀ node, st.find? (fun r => r.token == tok) = some node →
      node.domain ≠ cleanDomain d →
      announce probe fetch now i t req st = (.forbidden, st)) := by
  constructor
  · intro hfind
    simp only [announce, hd, ht]
    rw [if_neg (by simp [hd0]), if_neg (by simp [ht0])]
    simp only [heartbeat, hfind]
  · intro node hfind hne
    simp only [announce, hd, ht]
    rw [if_neg (by simp [hd0]), if_neg (by simp [ht0])]
    simp only [heartbeat, hfind]
    rw [if_pos (by simp [bne_iff_ne, hne])]

/-- Counterexample to C6 as stated: with `recA` registered, an announce whose
`token` field is present but equal to `""` — a token matching no stored
record — is routed to the registration branch and fails 409 Conflict, not 401
Unauthorized. -/
theorem claim_C6_counterexample :
    (∀ r ∈ [recA], r.token ≠ "")
    ∧ reqEmptyTok.token = some ""
    ∧ announce probeUp fetchAbsent 0 "id-x" "tok-x" reqEmptyTok [recA] = (.conflict, [recA])
    ∧ AnnounceRes.conflict ≠ .unauthorized := by
  refine ⟨by decide, rfl, by decide, by decide⟩

/-- Witness for C6: an unknown token yields 401 and a domain-mismatched token
yields 403, both leaving `[recA]` unchanged. -/
theorem claim_C6_witness :
    announce probeUp fetchAbsent 0 "i" "t" reqUnknownTok [recA] = (.unauthorized, [recA])
    ∧ announce probeUp fetchAbsent 0 "i" "t" reqMismatch [recA] = (.forbidden, [recA]) := by
  constructor
  · exact (claim_C6 probeUp fetchAbsent 0 "i" "t" reqUnknownTok [recA] "a.example" "nope"
      rfl (by decide) rfl (by decide)).1 rfl
  · exact (claim_C6 probeUp fetchAbsent 0 "i" "t" reqMismatch [recA] "b.example" "tokA"
      rfl (by decide) rfl (by decide)).2 recA rfl (by decide)

/-- Claim C9: a successful heartbeat returns 200 `updated` and leaves every
row's `id`, `token`, `domain` and `first_seen` unchanged; since this holds for
every heartbeat against every store, it holds for arbitrarily many
repetitions. -/
theorem claim_C9
    (probe : HealthProbe) (fetch : InfoFetch) (now : Int) (i t : String)
    (req : AnnounceReq) (st : List NodeRecord) (d tok : String) (node : NodeRecord)
    (hd : req.domain = some d) (hd0 : d ≠ "")
    (ht : req.token = some tok) (ht0 : tok ≠ "")
    (hfind : st.find? (fun r => r.token == tok) = some node)
    (hdom : node.domain = cleanDomain d) :
    (announce probe fetch now i t req st).1 = .updated node.id (cleanDomain d)
    ∧ ((announce probe fetch now i t req st).2).map
        (fun r => (r.id, r.token, r.domain, r.first_seen))
      = st.map (fun r => (r.id, r.token, r.domain, r.first_seen)) := by
  rw [announce_heartbeat_run probe fetch now i t req st d tok node hd hd0 ht ht0 hfind hdom]
  refine ⟨rfl, ?_⟩
  rw [List.map_map]
  refine List.map_congr_left ?_
  intro r _
  simp only [Function.comp_apply]
  by_cases hc : (r.token == tok) = true
  · rw [if_pos hc]; rfl
  · rw [if_neg hc]

/-- Witness for C9 at a concrete heartbeat on `[recA]`. -/
theorem claim_C9_witness :
    ((announce probeUp fetchAbsent 1000 "i" "t" reqTrack20 [recA]).2).map
        (fun r => (r.id, r.token, r.domain, r.first_seen))
      = [recA].map (fun r => (r.id, r.token, r.domain, r.first_seen)) :=
  (claim_C9 probeUp fetchAbsent 1000 "i" "t" reqTrack20 [recA] "a.example" "tokA" recA
    rfl (by decide) rfl (by decide) (by decide) (by decide)).2

/-! ### Store invariant lemmas (C4) -/

lemma storeInv_filter (st : List NodeRecord) (q : NodeRecord → Bool) (h : StoreInv st) :
    StoreInv (st.filter q) :=
  fun r hr => h r (List.mem_filter.1 hr).1

lemma storeInv_heartbeat_map (st : List NodeRecord) (tok : String) (req : AnnounceReq)
    (info : Option NodeInfo) (now : Int) (h : StoreInv st) :
    StoreInv (st.map (fun r => if r.token == tok then heartbeatMerge req info r now else r)) := by
  intro r' hr'
  rcases List.mem_map.1 hr' with ⟨r, hr, rfl⟩
  by_cases hc : (r.token == tok) = true
  · rw [if_pos hc]
    exact ⟨fun hds => absurd rfl hds, fun hon => absurd hon one_ne_zero⟩
  · rw [if_neg hc]
    exact h r hr

lemma storeInv_heartbeat (fetch : InfoFetch) (now : Int) (req : AnnounceReq) (tok dom : String)
    (st : List NodeRecord) (h : StoreInv st) :
    StoreInv (heartbeat fetch now req tok dom st).2 := by
  unfold heartbeat
  cases hfind : st.find? (fun r => r.token == tok) with
  | none => exact h
  | some node =>
    dsimp only
    by_cases hne : (node.domain != dom) = true
    · rw [if_pos hne]; exact h
    · rw [if_neg hne]; exact storeInv_heartbeat_map st tok req (fetch dom) now h

lemma storeInv_register (probe : HealthProbe) (fetch : InfoFetch) (now : Int)
    (i t : String) (req : AnnounceReq) (dom : String)
    (st : List NodeRecord) (h : StoreInv st) :
    StoreInv (register probe fetch now i t req dom st).2 := by
  unfold register
  by_cases hex : (st.any fun r => r.domain == dom) = true
  · rw [if_pos hex]; exact h
  · rw [if_neg hex]
    by_cases hp : (!(probe dom)) = true
    · rw [if_pos hp]; exact h
    · rw [if_neg hp]
      intro r hr
      rcases List.mem_append.1 hr with h1 | h1
      · exact h r h1
      · rcases List.mem_singleton.1 h1 with rfl
        exact ⟨fun hds => absurd rfl hds, fun hon => absurd hon one_ne_zero⟩

lemma storeInv_announce (probe : HealthProbe) (fetch : InfoFetch) (now : Int)
    (i t : String) (req : AnnounceReq) (st : List NodeRecord) (h : StoreInv st) :
    StoreInv (announce probe fetch now i t req st).2 := by
  unfold announce
  cases hd : req.domain with
  | none => exact h
  | some d =>
    dsimp only
    by_cases h0 : (d == "") = true
    · rw [if_pos h0]; exact h
    · rw [if_neg h0]
      cases ht : req.token with
      | none => exact storeInv_register probe fetch now i t req (cleanDomain d) st h
      | some tok =>
        dsimp only
        by_cases h1 : (tok == "") = true
        · rw [if_pos h1]; exact storeInv_register probe fetch now i t req (cleanDomain d) st h
        · rw [if_neg h1]; exact storeInv_heartbeat fetch now req tok (cleanDomain d) st h

lemma storeInv_deleteNode (tokH : Option String) (domP : String)
    (st : List NodeRecord) (h : StoreInv st) :
    StoreInv (deleteNode tokH domP st).2 := by
  unfold deleteNode
  cases tokH with
  | none => exact h
  | some tok =>
    dsimp only
    by_cases h0 : (tok == "") = true
    · rw [if_pos h0]; exact h
    · rw [if_neg h0]
      cases hfind : st.find? (fun r => r.domain == cleanDomain domP && r.token == tok) with
      | none => exact h
      | some node => exact storeInv_filter st _ h

lemma storeInv_offlineMark (now : Int) (node : NodeRecord) (st : List NodeRecord)
    (h : StoreInv st) : StoreInv (offlineMark now node st) := by
  unfold offlineMark
  by_cases ho : (node.is_online != 0) = true
  · rw [if_pos ho]
    intro r' hr'
    rcases List.mem_map.1 hr' with ⟨r, hr, rfl⟩
    by_cases hc : (r.id == node.id) = true
    · rw [if_pos hc]
      exact ⟨fun _ => rfl, fun _ heq => Option.noConfusion heq⟩
    · rw [if_neg hc]; exact h r hr
  · rw [if_neg ho]; exact h

lemma storeInv_sweepStep (probe : HealthProbe) (fetch : InfoFetch) (now : Int)
    (st : List NodeRecord) (node : NodeRecord) (h : StoreInv st) :
    StoreInv (sweepStep probe fetch now st node) := by
  unfold sweepStep
  by_cases hp : (probe node.domain) = true
  · rw [if_pos hp]
    intro r' hr'
    rcases List.mem_map.1 hr' with ⟨r, hr, rfl⟩
    by_cases hc : (r.id == node.id) = true
    · rw [if_pos hc]
      exact ⟨fun hds => absurd rfl hds, fun hon => absurd hon one_ne_zero⟩
    · rw [if_neg hc]; exact h r hr
  · rw [if_neg hp]
    cases hds : node.down_since with
    | none => exact storeInv_offlineMark now node st h
    | some ds =>
      dsimp only
      by_cases he : (evictionDue now ds) = true
      · rw [if_pos he]
        exact storeInv_filter _ _ (storeInv_offlineMark now node st h)
      · rw [if_neg he]
        exact storeInv_offlineMark now node st h

lemma storeInv_sweepFold (probe : HealthProbe) (fetch : InfoFetch) (now : Int) :
    ∀ (l st : List NodeRecord), StoreInv st →
      StoreInv (l.foldl (sweepStep probe fetch now) st)
  | [], _, h => h
  | n :: ns, st, h =>
    storeInv_sweepFold probe fetch now ns _ (storeInv_sweepStep probe fetch now st n h)

/-- Claim C4: every operation — registration or heartbeat (`announce`),
authenticated deletion (`deleteNode`), and a full sweep cycle
(`runHealthChecks`) — preserves the invariant that a row's `down_since` is
non-null exactly when its `is_online` flag is 0. -/
theorem claim_C4
    (probe : HealthProbe) (fetch : InfoFetch) (now : Int) (i t : String)
    (req : AnnounceReq) (tokH : Option String) (domP : String)
    (st : List NodeRecord) (h : StoreInv st) :
    StoreInv (announce probe fetch now i t req st).2
    ∧ StoreInv (deleteNode tokH domP st).2
    ∧ StoreInv (runHealthChecks probe fetch now st) :=
  ⟨storeInv_announce probe fetch now i t req st h,
   storeInv_deleteNode tokH domP st h,
   storeInv_sweepFold probe fetch now st st h⟩

/-- Witness for C4 on a concrete two-row store holding one online and one
offline node. -/
theorem claim_C4_witness :
    StoreInv (announce probeUp fetchAbsent 5 "i" "t" reqTrack20 [recA, recDown]).2
    ∧ StoreInv (deleteNode (some "tokA") "a.example" [recA, recDown]).2
    ∧ StoreInv (runHealthChecks probeUp fetchAbsent 5 [recA, recDown]) :=
  claim_C4 probeUp fetchAbsent 5 "i" "t" reqTrack20 (some "tokA") "a.example"
    [recA, recDown] (by unfold StoreInv; decide)

/-! ### Sweep membership lemmas (C2) -/

lemma idsOf_map_same (st : List NodeRecord) (g : NodeRecord → NodeRecord)
    (hg : ∀ r, (g r).id = r.id) : idsOf (st.map g) = idsOf st := by
  unfold idsOf
  rw [List.map_map]
  exact List.map_congr_left (fun r _ => hg r)

lemma idsOf_offlineMark (now : Int) (node : NodeRecord) (st : List NodeRecord) :
    idsOf (offlineMark now node st) = idsOf st := by
  unfold offlineMark
  by_cases ho : (node.is_online != 0) = true
  · rw [if_pos ho]
    apply idsOf_map_same
    intro r
    by_cases hc : (r.id == node.id) = true
    · rw [if_pos hc]
    · rw [if_neg hc]
  · rw [if_neg ho]

lemma mem_idsOf_filter_ne (st : List NodeRecord) (x y : String) (hx : x ≠ y) :
    x ∈ idsOf (st.filter (fun r => !(r.id == y))) ↔ x ∈ idsOf st := by
  unfold idsOf
  simp only [List.mem_map, List.mem_filter]
  constructor
  · rintro ⟨r, ⟨hr, -⟩, rfl⟩
    exact ⟨r, hr, rfl⟩
  · rintro ⟨r, hr, rfl⟩
    refine ⟨r, ⟨hr, ?_⟩, rfl⟩
    simp [hx]

lemma not_mem_idsOf_filter_self (st : List NodeRecord) (y : String) :
    y ∉ idsOf (st.filter (fun r => !(r.id == y))) := by
  unfold idsOf
  simp only [List.mem_map, List.mem_filter]
  rintro ⟨r, ⟨-, hq⟩, rfl⟩
  simp at hq

lemma mem_idsOf_sweepStep_ne (probe : HealthProbe) (fetch : InfoFetch) (now : Int)
    (st : List NodeRecord) (m : NodeRecord) (x : String) (hx : x ≠ m.id) :
    x ∈ idsOf (sweepStep probe fetch now st m) ↔ x ∈ idsOf st := by
  unfold sweepStep
  by_cases hp : (probe m.domain) = true
  · have hg : ∀ r : NodeRecord,
        (if (r.id == m.id) = true then sweepHealthyUpdate (fetch m.domain) now r else r).id
          = r.id := by
      intro r
      by_cases hc : (r.id == m.id) = true
      · rw [if_pos hc]; rfl
      · rw [if_neg hc]
    rw [if_pos hp, idsOf_map_same _ _ hg]
  · rw [if_neg hp]
    cases hds : m.down_since with
    | none => rw [idsOf_offlineMark]
    | some ds =>
      dsimp only
      by_cases he : (evictionDue now ds) = true
      · rw [if_pos he, mem_idsOf_filter_ne _ _ _ hx, idsOf_offlineMark]
      · rw [if_neg he, idsOf_offlineMark]

lemma mem_idsOf_sweepFold (probe : HealthProbe) (fetch : InfoFetch) (now : Int) :
    ∀ (l st : List NodeRecord) (x : String), (∀ m ∈ l, x ≠ m.id) →
      (x ∈ idsOf (l.foldl (sweepStep probe fetch now) st) ↔ x ∈ idsOf st)
  | [], _, _, _ => Iff.rfl
  | n :: ns, st, x, h => by
    rw [List.foldl_cons,
      mem_idsOf_sweepFold probe fetch now ns _ x (fun m hm => h m (List.mem_cons_of_mem _ hm))]
    exact mem_idsOf_sweepStep_ne probe fetch now st n x (h n (List.mem_cons_self _ _))

/-- Claim C2: on a sweep cycle in which a record's probe returns false, that
record survives the cycle iff its `down_since` value from the cycle-start
snapshot (the value stored before this cycle's update) is not at least 48
hours old; in particular a record transitioning offline this cycle (snapshot
`down_since = null`) is never deleted in the same cycle, a record whose
`down_since` is exactly 48h0m old is deleted, and one 47h59m old is kept. -/
theorem claim_C2 (probe : HealthProbe) (fetch : InfoFetch) (now : Int)
    (st : List NodeRecord) (node : NodeRecord)
    (hmem : node ∈ st) (hnd : (idsOf st).Nodup) (hprobe : probe node.domain = false) :
    node.id ∈ idsOf (runHealthChecks probe fetch now st) ↔
      ¬ ∃ ds, node.down_since = some ds ∧ REMOVAL_THRESHOLD_HOURS * HOUR_MS ≤ now - ds := by
  obtain ⟨l₁, l₂, rfl⟩ := List.append_of_mem hmem
  have hids : idsOf (l₁ ++ node :: l₂) = idsOf l₁ ++ node.id :: idsOf l₂ := by
    unfold idsOf
    rw [List.map_append, List.map_cons]
  rw [hids] at hnd
  have hdisj := List.disjoint_of_nodup_append hnd
  have h2 : node.id ∉ idsOf l₂ :=
    (List.nodup_cons.1 (List.Nodup.of_append_right hnd)).1
  have h1 : ∀ m ∈ l₁, node.id ≠ m.id := by
    intro m hm heq
    exact hdisj (List.mem_map.2 ⟨m, hm, heq.symm⟩) (List.mem_cons_self _ _)
  have h2' : ∀ m ∈ l₂, node.id ≠ m.id := by
    intro m hm heq
    exact h2 (List.mem_map.2 ⟨m, hm, heq.symm⟩)
  have hpre : node.id ∈ idsOf (l₁.foldl (sweepStep probe fetch now) (l₁ ++ node :: l₂)) := by
    rw [mem_idsOf_sweepFold probe fetch now l₁ _ node.id h1, hids]
    exact List.mem_append_right _ (List.mem_cons_self _ _)
  unfold runHealthChecks
  rw [List.foldl_append, List.foldl_cons,
    mem_idsOf_sweepFold probe fetch now l₂ _ node.id h2']
  unfold sweepStep
  rw [if_neg (by simp [hprobe])]
  cases hds : node.down_since with
  | none =>
    rw [idsOf_offlineMark]
    constructor
    · rintro - ⟨ds, hcontra, -⟩
      cases hcontra
    · intro _
      exact hpre
  | some ds =>
    dsimp only
    by_cases he : (evictionDue now ds) = true
    · rw [if_pos he]
      have hle : REMOVAL_THRESHOLD_HOURS * HOUR_MS ≤ now - ds := by
        simpa [evictionDue] using he
      refine ⟨fun hmem2 => absurd hmem2 (not_mem_idsOf_filter_self _ _),
        fun hno => absurd ⟨ds, rfl, hle⟩ hno⟩
    · rw [if_neg he, idsOf_offlineMark]
      constructor
      · rintro - ⟨ds2, hds2, hle⟩
        cases hds2
        exact he (by simp [evictionDue, hle])
      · intro _
        exact hpre

/-- Witness for C2: a node whose snapshot `down_since` is exactly 48h0m old is
evicted, one 47h59m old survives, and one transitioning offline this cycle
(`down_since = null` in the snapshot) survives. -/
theorem claim_C2_witness :
    recDown.id ∉ idsOf (runHealthChecks probeDown fetchAbsent 172800000 [recDown])
    ∧ recDown.id ∈ idsOf (runHealthChecks probeDown fetchAbsent 172740000 [recDown])
    ∧ recA.id ∈ idsOf (runHealthChecks probeDown fetchAbsent 500 [recA]) := by
  refine ⟨?_, ?_, ?_⟩
  · intro hmem2
    exact (claim_C2 probeDown fetchAbsent 172800000 [recDown] recDown
      (List.mem_singleton.2 rfl) (by decide) rfl).mp hmem2 ⟨0, rfl, by decide⟩
  · refine (claim_C2 probeDown fetchAbsent 172740000 [recDown] recDown
      (List.mem_singleton.2 rfl) (by decide) rfl).mpr ?_
    rintro ⟨ds, hds, hle⟩
    rw [show recDown.down_since = some 0 from rfl] at hds
    cases hds
    exact absurd hle (by decide)
  · refine (claim_C2 probeDown fetchAbsent 500 [recA] recA
      (List.mem_singleton.2 rfl) (by decide) rfl).mpr ?_
    rintro ⟨ds, hds, -⟩
    rw [show recA.down_since = (none : Option Int) from rfl] at hds
    cases hds

/-! ### Sweep independence (C3) -/

lemma sweepLoopE_no_fail (probe : HealthProbe) (fetch : InfoFetch) (now : Int) :
    ∀ (l st : List NodeRecord),
      sweepLoopE probe fetch now (fun _ => false) st l
        = (l.foldl (sweepStep probe fetch now) st, false)
  | [], _ => rfl
  | n :: ns, st => by
    simp only [sweepLoopE, Bool.false_eq_true, if_false, List.foldl_cons]
    exact sweepLoopE_no_fail probe fetch now ns _

/-- Claim C3 (amended): probe and fetch failures never abort a sweep cycle —
they are swallowed inside the probe client, so when no store write throws the
loop runs to completion over every snapshot record, whatever the probe
results, and produces exactly the total sweep `runHealthChecks`.  A store
exception while processing one record, however, aborts the remainder of the
cycle, because the loop body has no per-record exception handler (see the
counterexample). -/
theorem claim_C3 (probe : HealthProbe) (fetch : InfoFetch) (now : Int)
    (st : List NodeRecord) :
    runHealthChecksE probe fetch now (fun _ => false) st
      = (runHealthChecks probe fetch now st, false) :=
  sweepLoopE_no_fail probe fetch now st st

/-- Counterexample to C3 as stated: with two online nodes whose probes both
fail, a store exception while processing the first (`dbFailB1`) aborts the
cycle: the sweep ends with the abort flag set and `recB2` still recorded
online, although its probe returned false — while an exception-free cycle
would have updated it. -/
theorem claim_C3_counterexample :
    runHealthChecksE probeDown fetchAbsent 1000 dbFailB1 [recB1, recB2]
      = ([recB1, recB2], true)
    ∧ probeDown recB2.domain = false
    ∧ recB2.is_online = 1
    ∧ runHealthChecks probeDown fetchAbsent 1000 [recB1, recB2] ≠ [recB1, recB2] := by
  refine ⟨by decide, rfl, rfl, by decide⟩

end SoundTimeListing
